import Mathlib

/-!
Verification development for the TriMarkity Cloud Telephony call-session
orchestrator.  The definitions below are a shallow embedding of the Python
route handlers in `backend/routes/` (webhooks.py, webrtc.py, calls.py,
outbound.py, telnyx-integration.py).  Timestamps are modelled as integer
seconds; the Mongo `call_logs` collection is modelled as a list of
documents; `update_one` is modelled as an update of the first matching
document; side-effecting provider actions (Telnyx REST calls) are modelled
as counters of issued requests.
-/

/-- A document of the `call_logs` collection, with the fields the embedded
handlers read or write. -/
structure CallDoc where
  call_id : String
  telnyx_session_id : Option String := none
  telnyx_call_control_id : Option String := none
  status : String := "idle"
  webhook_event : Option String := none
  started_at : Option Int := none
  answered_at : Option Int := none
  ended_at : Option Int := none
  created_at : Option Int := none
  updated_at : Option Int := none
  duration : Int := 0
  hangup_cause : Option String := none
  hangup_source : Option String := none
  sip_code : Option String := none
  disposition : Option String := none
  is_recording : Bool := false
  recording_requested : Bool := false
  recording_started_at : Option Int := none
  recording_channels : Option String := none
  recording_format : Option String := none
  is_machine_detected : Bool := false
  machine_detection_result : Option String := none
  last_speak_text : Option String := none
  deriving Repr, DecidableEq

/-- The provider-event payload fields consumed by the embedded handlers
(`data.payload` of a Telnyx webhook body).  `duration_millis` defaults to 0
as in `payload.get("duration_millis", 0)`. -/
structure Payload where
  call_session_id : Option String := none
  call_control_id : Option String := none
  client_state : Option String := none
  hangup_cause : Option String := none
  hangup_source : Option String := none
  sip_hangup_cause : Option String := none
  sip_code : Option String := none
  duration_millis : Nat := 0
  result : Option String := none
  text : Option String := none
  deriving Repr, DecidableEq

/-- An entry of the `webhooks` archive collection
(webhooks.py, `webhook_doc`). -/
structure ArchiveEntry where
  telnyx_session_id : Option String
  telnyx_control_id : Option String
  event_type : String
  timestamp : Int
  call_id : Option String := none
  deriving Repr, DecidableEq

/-- The database state touched by the main webhook handler:
the `call_logs` collection and the `webhooks` archive. -/
structure DBState where
  call_logs : List CallDoc
  webhooks : List ArchiveEntry
  deriving Repr, DecidableEq

/-- The JSON body returned by `handle_call_webhook`; FastAPI serves a plain
dict return with HTTP 200, recorded here in `http`. -/
structure WebhookResponse where
  http : Nat := 200
  status : String
  note : Option String := none
  warning : Option String := none
  disposition : Option String := none
  deriving Repr, DecidableEq

/-- Predicate selecting the document with the given internal call id. -/
def matchId (cid : String) (d : CallDoc) : Bool :=
  d.call_id == cid

/-- Mongo `update_one`: rewrite the first document matching the filter. -/
def updateFirst (p : CallDoc → Bool) (f : CallDoc → CallDoc) :
    List CallDoc → List CallDoc
  | [] => []
  | d :: ds => if p d then f d :: ds else d :: updateFirst p f ds

/-- `find_one({"telnyx_session_id": sid})`. -/
def findBySession (sid : String) (l : List CallDoc) : Option CallDoc :=
  l.find? (fun d => d.telnyx_session_id == some sid)

/-- `find_one({"telnyx_call_control_id": cid})`. -/
def findByControl (cid : String) (l : List CallDoc) : Option CallDoc :=
  l.find? (fun d => d.telnyx_call_control_id == some cid)

/-- Session resolution of `handle_call_webhook` (webhooks.py lines
312-316): try the provider session id first, then fall back to the
call-control id. -/
def resolveDoc (p : Payload) (logs : List CallDoc) : Option CallDoc :=
  let bySession :=
    match p.call_session_id with
    | some sid => findBySession sid logs
    | none => none
  match bySession with
  | some d => some d
  | none =>
    match p.call_control_id with
    | some cid => findByControl cid logs
    | none => none

/-- Hangup-cause classification of the main webhook handler
(webhooks.py lines 385-392). -/
def classifyCause (cause : String) : String :=
  if cause = "NORMAL_CLEARING" ∨ cause = "ORIGINATOR_CANCEL" then "completed"
  else if cause = "USER_BUSY" then "busy"
  else if cause = "NO_ANSWER" ∨ cause = "NO_USER_RESPONSE" then "no_answer"
  else "failed"

/-- `call.initiated` branch of `handle_call_webhook`
(webhooks.py lines 342-352). -/
def webhookInitiatedDoc (now : Int) (d : CallDoc) : CallDoc :=
  { d with
    status := "dialing"
    webhook_event := some "call.initiated"
    updated_at := some now }

/-- `call.answered` branch of `handle_call_webhook`
(webhooks.py lines 362-374). -/
def webhookAnsweredDoc (now : Int) (d : CallDoc) : CallDoc :=
  { d with
    status := "active"
    webhook_event := some "call.answered"
    answered_at := some now
    started_at := some now
    updated_at := some now }

/-- `call.ended` / `call.hangup` branch of `handle_call_webhook`
(webhooks.py lines 377-409): duration comes from the payload's
`duration_millis`, the disposition from `classifyCause` of the payload's
`hangup_cause` (defaulting to `NORMAL_CLEARING`). -/
def webhookEndedDoc (et : String) (now : Int) (p : Payload) (d : CallDoc) :
    CallDoc :=
  let dur : Nat := if p.duration_millis = 0 then 0 else p.duration_millis / 1000
  let cause := p.hangup_cause.getD "NORMAL_CLEARING"
  { d with
    status := "ended"
    webhook_event := some et
    duration := (dur : Int)
    ended_at := some now
    updated_at := some now
    hangup_cause := some cause
    hangup_source := some (p.hangup_source.getD "unknown")
    sip_code := some (p.sip_hangup_cause.getD (p.sip_code.getD "200"))
    disposition := some (classifyCause cause) }

/-- `call.machine.detection.ended` branch of `handle_call_webhook`
(webhooks.py lines 420-434). -/
def webhookMachineDoc (now : Int) (p : Payload) (d : CallDoc) : CallDoc :=
  let detection := p.result.getD "not_sure"
  { d with
    is_machine_detected := detection == "machine"
    machine_detection_result := some detection
    webhook_event := some "call.machine.detection.ended"
    updated_at := some now }

/-- `call.recording.started` branch of `handle_call_webhook`
(webhooks.py lines 446-456). -/
def webhookRecStartedDoc (now : Int) (d : CallDoc) : CallDoc :=
  { d with
    is_recording := true
    recording_started_at := some now
    updated_at := some now }

/-- `call.speak.started` branch of `handle_call_webhook`
(webhooks.py lines 459-470). -/
def webhookSpeakDoc (now : Int) (p : Payload) (d : CallDoc) : CallDoc :=
  { d with
    last_speak_text := some (p.text.getD "")
    webhook_event := some "call.speak.started"
    updated_at := some now }

/-- Event dispatch of `handle_call_webhook` on a matched session: updates
the matched document in `call_logs` and yields the disposition the response
will carry.  `call.recording.saved` spawns only a background task and
performs no synchronous session mutation; unrecognized event types leave
the collection untouched. -/
def applyWebhookEvent (now : Int) (et : String) (p : Payload) (cid : String)
    (logs : List CallDoc) : List CallDoc × Option String :=
  if et = "call.initiated" then
    (updateFirst (matchId cid) (webhookInitiatedDoc now) logs, none)
  else if et = "call.answered" then
    (updateFirst (matchId cid) (webhookAnsweredDoc now) logs, none)
  else if et = "call.ended" ∨ et = "call.hangup" then
    let cause := p.hangup_cause.getD "NORMAL_CLEARING"
    (updateFirst (matchId cid) (webhookEndedDoc et now p) logs,
      some (classifyCause cause))
  else if et = "call.machine.detection.ended" then
    (updateFirst (matchId cid) (webhookMachineDoc now p) logs, none)
  else if et = "call.recording.started" then
    (updateFirst (matchId cid) (webhookRecStartedDoc now) logs, none)
  else if et = "call.speak.started" then
    (updateFirst (matchId cid) (webhookSpeakDoc now p) logs, none)
  else
    (logs, none)

/-- The main webhook entry point `handle_call_webhook` (webhooks.py lines
287-481).  Missing both identifiers: early success return, nothing archived
and nothing mutated.  Unmatched identifiers: one archive entry, no session
mutation, success with a `call_not_tracked` note.  Matched: the event is
dispatched and one archive entry (carrying the internal call id) is
appended. -/
def handleCallWebhook (now : Int) (et : String) (p : Payload)
    (st : DBState) : DBState × WebhookResponse :=
  if p.call_session_id = none ∧ p.call_control_id = none then
    (st, { status := "received", warning := some "no_call_id" })
  else
    let entry : ArchiveEntry :=
      { telnyx_session_id := p.call_session_id
        telnyx_control_id := p.call_control_id
        event_type := et
        timestamp := now }
    match resolveDoc p st.call_logs with
    | none =>
      ({ st with webhooks := st.webhooks ++ [entry] },
        { status := "received", note := some "call_not_tracked" })
    | some d =>
      let entryM := { entry with call_id := some d.call_id }
      let res := applyWebhookEvent now et p d.call_id st.call_logs
      ({ call_logs := res.1, webhooks := st.webhooks ++ [entryM] },
        { status := "received", disposition := res.2 })

example :
    classifyCause "ORIGINATOR_CANCEL" = "completed" ∧
    classifyCause "NO_USER_RESPONSE" = "no_answer" ∧
    classifyCause "PROTOCOL_ERROR" = "failed" := by decide

/-- Hangup-cause classification of the webrtc webhook handler
(webrtc.py lines 838-845): `disposition = "completed"` unless the cause is
`USER_BUSY`, `NO_ANSWER`, or outside `{NORMAL_CLEARING, normal}`. -/
def webrtcClassify (cause : String) : String :=
  if cause = "USER_BUSY" then "busy"
  else if cause = "NO_ANSWER" then "no_answer"
  else if ¬(cause = "NORMAL_CLEARING" ∨ cause = "normal") then "failed"
  else "completed"

/-- `call.hangup` / `call.ended` branch of the webrtc webhook
(webrtc.py lines 828-860): duration is the wall-clock difference from
`answered_at` (falling back to `started_at`, 0 when neither is set); the
default cause when absent is `"normal"`. -/
def webrtcEndedDoc (now : Int) (p : Payload) (d : CallDoc) : CallDoc :=
  let cause := p.hangup_cause.getD "normal"
  let src := p.hangup_source.getD "unknown"
  let sip := p.sip_code.getD "unknown"
  let base : Option Int :=
    match d.answered_at with
    | some a => some a
    | none => d.started_at
  let dur : Int :=
    match base with
    | some s => now - s
    | none => 0
  { d with
    status := "ended"
    ended_at := some now
    duration := dur
    hangup_cause := some cause
    hangup_source := some src
    sip_code := some sip
    disposition := some (webrtcClassify cause) }

/-- Result of one execution of the webrtc `call.answered` branch
(webrtc.py lines 739-816): the rewritten document, plus a count of the
`record_start` provider requests issued.  The handler issues no conference
create/join provider action and writes no conference document anywhere, so
`conferenceCreates` is always 0. -/
structure AnswerOutcome where
  doc : CallDoc
  recordStartRequests : Nat
  conferenceCreates : Nat
  deriving Repr, DecidableEq

/-- One execution of the webrtc `call.answered` branch.  `snap` is the
session document the handler loaded at entry (webrtc.py line 727): the
recording guard `if not call_doc.get("recording_requested")` (line 764)
reads this snapshot, while the updates apply to the current document `d`.
`providerOk` is whether the `record_start` REST call returned 200. -/
def webrtcAnswer (now : Int) (snap : CallDoc) (providerOk : Bool)
    (d : CallDoc) : AnswerOutcome :=
  let d1 := { d with status := "active", answered_at := some now }
  if snap.recording_requested then
    { doc := d1, recordStartRequests := 0, conferenceCreates := 0 }
  else if providerOk then
    { doc :=
        { d1 with
          is_recording := true
          recording_requested := true
          recording_started_at := some now
          recording_channels := some "dual"
          recording_format := some "wav" }
      recordStartRequests := 1
      conferenceCreates := 0 }
  else
    { doc := d1, recordStartRequests := 1, conferenceCreates := 0 }

deriving instance DecidableEq for Except

/-- Result of a registry-level call-control endpoint: the rewritten
collection and either an HTTP error code or a (status, duration) body. -/
structure HangupResult where
  logs : List CallDoc
  response : Except Nat (String × Int)
  deriving Repr, DecidableEq

/-- `hangup_call` of webrtc.py (lines 885-990): 404 when the call id is
unknown; a guarded no-op returning `already_ended` when the status is
already `ended`/`completed`/`failed`; otherwise computes the duration from
`answered_at` (falling back to `started_at`) and writes the terminal
state. -/
def webrtcHangup (now : Int) (cid : String) (logs : List CallDoc) :
    HangupResult :=
  match logs.find? (matchId cid) with
  | none => { logs := logs, response := .error 404 }
  | some call =>
    if call.status = "ended" ∨ call.status = "completed" ∨
        call.status = "failed" then
      { logs := logs, response := .ok ("already_ended", call.duration) }
    else
      let base : Option Int :=
        match call.answered_at with
        | some a => some a
        | none => call.started_at
      let dur : Int :=
        match base with
        | some s => now - s
        | none => 0
      { logs := updateFirst (matchId cid)
          (fun d =>
            { d with
              status := "ended"
              ended_at := some now
              duration := dur
              updated_at := some now }) logs
        response := .ok ("ended", dur) }

/-- `hang_up_call` of calls.py (lines 132-142): sets status `ended` and
`ended_at := now` on every invocation; 404 only when no document
matches. -/
def callsHangUp (now : Int) (cid : String) (logs : List CallDoc) :
    HangupResult :=
  match logs.find? (matchId cid) with
  | none => { logs := logs, response := .error 404 }
  | some _ =>
    { logs := updateFirst (matchId cid)
        (fun d => { d with status := "ended", ended_at := some now }) logs
      response := .ok ("ended", 0) }

/-- `update_call_status` of calls.py (lines 93-103): writes the posted
status and duration and `ended_at := now` on every invocation, terminal or
not. -/
def updateCallStatusDoc (now : Int) (status : String) (dur : Int)
    (d : CallDoc) : CallDoc :=
  { d with status := status, duration := dur, ended_at := some now }

/-- Result of an outbound.py operation: collection, `active_calls` keys,
response, and the number of Telnyx hangup requests issued. -/
structure OutboundResult where
  logs : List CallDoc
  active : List String
  response : Except Nat (String × Int)
  hangupRequests : Nat
  deriving Repr, DecidableEq

/-- `hangup_outbound_call` of outbound.py (lines 229-278): no terminal
guard; recomputes duration from `started_at` and rewrites `ended_at` on
every invocation; provider failures are swallowed; 404 only on unknown
call id. -/
def outboundHangup (now : Int) (cid : String) (logs : List CallDoc)
    (active : List String) : OutboundResult :=
  match logs.find? (matchId cid) with
  | none =>
    { logs := logs, active := active, response := .error 404
      hangupRequests := 0 }
  | some call =>
    let issued : Nat :=
      match call.telnyx_call_control_id with
      | some _ => 1
      | none => 0
    let dur : Int :=
      match call.started_at with
      | some s => now - s
      | none => 0
    { logs := updateFirst (matchId cid)
        (fun d =>
          { d with status := "ended", duration := dur, ended_at := some now })
        logs
      active := active.filter (fun c => !(c == cid))
      response := .ok ("ended", dur)
      hangupRequests := issued }

/-- The firing body of `_auto_hangup` (outbound.py lines 425-462) after the
sleep: re-reads the session and, whenever the status differs from
`"ended"`, issues a Telnyx hangup (when a control id is recorded) and
writes the terminal state; only a status equal to `"ended"` (or an unknown
call id) makes it a no-op. -/
def autoHangupFire (now : Int) (cid : String) (logs : List CallDoc)
    (active : List String) : OutboundResult :=
  match logs.find? (matchId cid) with
  | none =>
    { logs := logs, active := active, response := .ok ("noop", 0)
      hangupRequests := 0 }
  | some call =>
    if call.status = "ended" then
      { logs := logs, active := active, response := .ok ("noop", 0)
        hangupRequests := 0 }
    else
      let issued : Nat :=
        match call.telnyx_call_control_id with
        | some _ => 1
        | none => 0
      { logs := updateFirst (matchId cid)
          (fun d => { d with status := "ended", ended_at := some now }) logs
        active := active.filter (fun c => !(c == cid))
        response := .ok ("fired", 0)
        hangupRequests := issued }

/-- Event-to-status mapping of the telnyx-integration webhook
(telnyx-integration.py lines 270-278). -/
def tiStatusMap (et : String) : Option String :=
  if et = "call.initiated" then some "dialing"
  else if et = "call.ringing" then some "ringing"
  else if et = "call.answered" then some "active"
  else if et = "call.bridged" then some "active"
  else if et = "call.hangup" then some "ended"
  else if et = "call.ended" then some "ended"
  else if et = "call.failed" then some "failed"
  else none

/-- An endpoint response is a success (no HTTPException). -/
def isOk : Except Nat (String × Int) → Bool
  | .ok _ => true
  | .error _ => false

/-- The document update of the telnyx-integration webhook
(telnyx-integration.py lines 285-294).  The source's
`update_doc.setdefault("ended_at", datetime.utcnow())` guards a freshly
built dict that never contains `ended_at`, so on every terminal event the
stored `ended_at` is overwritten unconditionally, despite the adjacent
comment "set ended_at if not already set". -/
def tiApplyDoc (now : Int) (newStatus : String) (d : CallDoc) : CallDoc :=
  if newStatus = "ended" ∨ newStatus = "failed" then
    { d with status := newStatus, updated_at := some now, ended_at := some now }
  else
    { d with status := newStatus, updated_at := some now }

/-- Updating the first match and then searching for it again finds the
rewritten document, provided the update preserves the filter. -/
theorem find_updateFirst (p : CallDoc → Bool) (f : CallDoc → CallDoc)
    (hp : ∀ d, p (f d) = p d) (l : List CallDoc) :
    (updateFirst p f l).find? p = (l.find? p).map f := by
  induction l with
  | nil => rfl
  | cons d ds ih =>
    by_cases h : p d
    · rw [updateFirst, if_pos h,
        List.find?_cons_of_pos _ (by rw [hp d]; exact h),
        List.find?_cons_of_pos _ h]
      rfl
    · rw [updateFirst, if_neg h, List.find?_cons_of_neg _ h,
        List.find?_cons_of_neg _ h, ih]

/-- Two successive first-match updates collapse to one composite update,
provided the first update preserves the filter. -/
theorem updateFirst_comp (p : CallDoc → Bool) (f g : CallDoc → CallDoc)
    (hp : ∀ d, p (f d) = p d) (l : List CallDoc) :
    updateFirst p g (updateFirst p f l) =
      updateFirst p (fun d => g (f d)) l := by
  induction l with
  | nil => rfl
  | cons d ds ih =>
    by_cases h : p d
    · rw [updateFirst, if_pos h, updateFirst, if_pos (by rw [hp d]; exact h),
        updateFirst, if_pos h]
    · rw [updateFirst, if_neg h, updateFirst, if_neg h, updateFirst,
        if_neg h, ih]

/-- C10: processing a `call.answered` event on the main webhook path
unconditionally overwrites both `answered_at` and `started_at` of the
matched session with the current time — for every prior document, including
one whose `started_at` was already recorded — and leaves the session's other
timestamp fields (`ended_at`, `created_at`, `recording_started_at`) and its
duration and disposition unchanged. -/
theorem C10_answered_overwrites_timestamps (now : Int) (d : CallDoc) :
    (webhookAnsweredDoc now d).answered_at = some now ∧
    (webhookAnsweredDoc now d).started_at = some now ∧
    (webhookAnsweredDoc now d).ended_at = d.ended_at ∧
    (webhookAnsweredDoc now d).created_at = d.created_at ∧
    (webhookAnsweredDoc now d).recording_started_at = d.recording_started_at ∧
    (webhookAnsweredDoc now d).duration = d.duration ∧
    (webhookAnsweredDoc now d).disposition = d.disposition :=
  ⟨rfl, rfl, rfl, rfl, rfl, rfl, rfl⟩

/-- C2 counterexample: a session already in the terminal status `ended` is
moved back to `active` by a later `call.answered` event — event processing
is not a no-op on terminal sessions, so the claimed monotonic order fails. -/
theorem C2_counterexample :
    (webhookAnsweredDoc 60
        { call_id := "C1", status := "ended", ended_at := some 50 }).status
      = "active" ∧ "active" ≠ "ended" :=
  ⟨rfl, by decide⟩

/-- C2 amended: the webhook handlers carry no terminal guard — each event's
status is written unconditionally, for every prior document including
terminal ones, on both the main webhook path and the telnyx-integration
path.  Hence `Ended`/`Failed` are not absorbing and status is not
monotonic. -/
theorem C2_no_terminal_guard (now : Int) (et : String) (p : Payload)
    (d : CallDoc) :
    (webhookAnsweredDoc now d).status = "active" ∧
    (webhookInitiatedDoc now d).status = "dialing" ∧
    (webhookEndedDoc et now p d).status = "ended" ∧
    (tiApplyDoc now "active" d).status = "active" ∧
    (tiApplyDoc now "dialing" d).status = "dialing" ∧
    (tiApplyDoc now "ended" d).status = "ended" :=
  ⟨rfl, rfl, rfl, by simp [tiApplyDoc], by simp [tiApplyDoc],
    by simp [tiApplyDoc]⟩

/-- C1 counterexample: an `Ended` event with hangup cause
`ORIGINATOR_CANCEL` processed by the webrtc webhook records disposition
`failed`, not the claimed `completed`. -/
theorem C1_counterexample :
    (webrtcEndedDoc 100 { hangup_cause := some "ORIGINATOR_CANCEL" }
        { call_id := "C1", status := "active", answered_at := some 10 }
      ).disposition = some "failed" ∧
    some "failed" ≠ some "completed" :=
  ⟨rfl, by decide⟩

/-- C1 amended: the main webhook handler follows the claimed table —
`NORMAL_CLEARING`/`ORIGINATOR_CANCEL` give `completed`, `USER_BUSY` gives
`busy`, `NO_ANSWER`/`NO_USER_RESPONSE` give `no_answer`, any other cause
gives `failed`, and an absent cause defaults to `completed`.  The webrtc
handler instead treats only `NORMAL_CLEARING` and `normal` as `completed`,
maps `USER_BUSY` to `busy` and `NO_ANSWER` to `no_answer`, and maps every
other cause — including `ORIGINATOR_CANCEL` and `NO_USER_RESPONSE` — to
`failed`; its absent-cause default is `normal`, hence `completed`. -/
theorem C1_disposition_both_paths (et : String) (now : Int) (p : Payload)
    (d : CallDoc) (c : String) :
    (p.hangup_cause = some c →
      ((c = "NORMAL_CLEARING" ∨ c = "ORIGINATOR_CANCEL") →
        (webhookEndedDoc et now p d).disposition = some "completed") ∧
      (c = "USER_BUSY" →
        (webhookEndedDoc et now p d).disposition = some "busy") ∧
      ((c = "NO_ANSWER" ∨ c = "NO_USER_RESPONSE") →
        (webhookEndedDoc et now p d).disposition = some "no_answer") ∧
      (c ≠ "NORMAL_CLEARING" → c ≠ "ORIGINATOR_CANCEL" → c ≠ "USER_BUSY" →
        c ≠ "NO_ANSWER" → c ≠ "NO_USER_RESPONSE" →
        (webhookEndedDoc et now p d).disposition = some "failed") ∧
      ((c = "NORMAL_CLEARING" ∨ c = "normal") →
        (webrtcEndedDoc now p d).disposition = some "completed") ∧
      (c = "USER_BUSY" →
        (webrtcEndedDoc now p d).disposition = some "busy") ∧
      (c = "NO_ANSWER" →
        (webrtcEndedDoc now p d).disposition = some "no_answer") ∧
      (c ≠ "NORMAL_CLEARING" → c ≠ "normal" → c ≠ "USER_BUSY" →
        c ≠ "NO_ANSWER" →
        (webrtcEndedDoc now p d).disposition = some "failed")) ∧
    (p.hangup_cause = none →
      (webhookEndedDoc et now p d).disposition = some "completed" ∧
      (webrtcEndedDoc now p d).disposition = some "completed") := by
  constructor
  · intro hc
    refine ⟨?_, ?_, ?_, ?_, ?_, ?_, ?_, ?_⟩
    · rintro (h | h) <;>
        simp [webhookEndedDoc, classifyCause, hc, h]
    · intro h
      simp [webhookEndedDoc, classifyCause, hc, h]
    · rintro (h | h) <;>
        simp [webhookEndedDoc, classifyCause, hc, h]
    · intro h1 h2 h3 h4 h5
      simp [webhookEndedDoc, classifyCause, hc, h1, h2, h3, h4, h5]
    · rintro (h | h) <;>
        simp [webrtcEndedDoc, webrtcClassify, hc, h]
    · intro h
      simp [webrtcEndedDoc, webrtcClassify, hc, h]
    · intro h
      simp [webrtcEndedDoc, webrtcClassify, hc, h]
    · intro h1 h2 h3 h4
      simp [webrtcEndedDoc, webrtcClassify, hc, h1, h2, h3, h4]
  · intro hc
    constructor
    · simp [webhookEndedDoc, classifyCause, hc]
    · simp [webrtcEndedDoc, webrtcClassify, hc]

/-- C1 witness: at the concrete cause `ORIGINATOR_CANCEL` the two paths
disagree — `completed` on the main webhook path, `failed` on the webrtc
path — exactly as the amended claim states. -/
theorem C1_witness :
    (webhookEndedDoc "call.ended" 50
        { hangup_cause := some "ORIGINATOR_CANCEL" }
        { call_id := "C1", status := "active" }).disposition
      = some "completed" ∧
    (webrtcEndedDoc 50 { hangup_cause := some "ORIGINATOR_CANCEL" }
        { call_id := "C1", status := "active" }).disposition
      = some "failed" := by
  have h := C1_disposition_both_paths "call.ended" 50
    { hangup_cause := some "ORIGINATOR_CANCEL" }
    { call_id := "C1", status := "active" } "ORIGINATOR_CANCEL"
  have h1 := (h.1 rfl).1 (Or.inr rfl)
  have h2 := (h.1 rfl).2.2.2.2.2.2.2 (by decide) (by decide) (by decide)
    (by decide)
  exact ⟨h1, h2⟩

/-- C3: the code rewrites `ended_at` repeatedly, contradicting the
set-at-most-once invariant (and the telnyx-integration source's own comment
"set ended_at if not already set", whose `setdefault` guards a fresh dict
rather than the stored document).  Evaluated at the failing inputs: a
second terminal webhook overwrites `ended_at` on both webhook paths, and
`update_call_status` writes `ended_at` even for a non-terminal status. -/
theorem C3_endedAt_rewritten :
    (tiApplyDoc 5 "ended" { call_id := "C1", status := "active" }).ended_at
      = some 5 ∧
    (tiApplyDoc 9 "ended"
        (tiApplyDoc 5 "ended" { call_id := "C1", status := "active" })
      ).ended_at = some 9 ∧
    (webhookEndedDoc "call.hangup" 9 { duration_millis := 4000 }
        (webhookEndedDoc "call.hangup" 5 { duration_millis := 3000 }
          { call_id := "C1", status := "active" })).ended_at = some 9 ∧
    (webhookEndedDoc "call.hangup" 9 { duration_millis := 4000 }
        (webhookEndedDoc "call.hangup" 5 { duration_millis := 3000 }
          { call_id := "C1", status := "active" })).duration = 4 ∧
    (updateCallStatusDoc 7 "active" 0
        { call_id := "C1", status := "ringing" }).ended_at = some 7 := by
  refine ⟨?_, ?_, ?_, ?_, ?_⟩ <;> decide

/-- C4 counterexample: the main webhook handler records the duration from
the payload's `duration_millis` (here 7000 ms, i.e. 7 s), not from
`now − answered_at` (here 100 − 2 = 98), refuting the claim as stated. -/
theorem C4_counterexample :
    (webhookEndedDoc "call.ended" 100 { duration_millis := 7000 }
        { call_id := "C1", status := "active", started_at := some 1,
          answered_at := some 2 }).duration = 7 ∧
    (7 : Int) ≠ 100 - 2 := by
  refine ⟨?_, ?_⟩ <;> decide

/-- C4 amended: only the webrtc webhook derives the duration from the
session clock — `now − answered_at` when `answered_at` is set, else
`now − started_at`, else 0, non-negative whenever the reference timestamp
does not exceed the current time.  The main webhook handler instead records
`duration_millis / 1000` taken from the payload, which is always
non-negative but independent of the session's timestamps. -/
theorem C4_duration_amended (et : String) (now a s : Int) (p : Payload)
    (d : CallDoc) :
    ((webhookEndedDoc et now p d).duration =
        ((p.duration_millis / 1000 : Nat) : Int) ∧
      0 ≤ (webhookEndedDoc et now p d).duration) ∧
    (d.answered_at = some a →
      (webrtcEndedDoc now p d).duration = now - a) ∧
    (d.answered_at = none → d.started_at = some s →
      (webrtcEndedDoc now p d).duration = now - s) ∧
    (d.answered_at = none → d.started_at = none →
      (webrtcEndedDoc now p d).duration = 0) ∧
    (d.answered_at = some a → a ≤ now →
      0 ≤ (webrtcEndedDoc now p d).duration) ∧
    (d.answered_at = none → d.started_at = some s → s ≤ now →
      0 ≤ (webrtcEndedDoc now p d).duration) := by
  refine ⟨⟨?_, ?_⟩, ?_, ?_, ?_, ?_, ?_⟩
  · by_cases h : p.duration_millis = 0
    · simp [webhookEndedDoc, h]
    · simp [webhookEndedDoc, h]
  · by_cases h : p.duration_millis = 0
    · simp [webhookEndedDoc, h]
    · simp [webhookEndedDoc, h]
      positivity
  · intro h
    simp [webrtcEndedDoc, h]
  · intro h1 h2
    simp [webrtcEndedDoc, h1, h2]
  · intro h1 h2
    simp [webrtcEndedDoc, h1, h2]
  · intro h1 h2
    simp [webrtcEndedDoc, h1]
    omega
  · intro h1 h2 h3
    simp [webrtcEndedDoc, h1, h2]
    omega

/-- C4 witness: with `answered_at = 2` and the clock at 100, the webrtc
path records duration `100 − 2` and it is non-negative, while the main
webhook path records 7 from `duration_millis = 7000`. -/
theorem C4_witness :
    (webhookEndedDoc "call.ended" 100 { duration_millis := 7000 }
        { call_id := "C1", status := "active", answered_at := some 2 }
      ).duration = ((7000 / 1000 : Nat) : Int) ∧
    (webrtcEndedDoc 100 { duration_millis := 7000 }
        { call_id := "C1", status := "active", answered_at := some 2 }
      ).duration = 100 - 2 ∧
    0 ≤ (webrtcEndedDoc 100 { duration_millis := 7000 }
        { call_id := "C1", status := "active", answered_at := some 2 }
      ).duration := by
  have h := C4_duration_amended "call.ended" 100 2 0
    { duration_millis := 7000 }
    { call_id := "C1", status := "active", answered_at := some 2 }
  exact ⟨h.1.1, h.2.1 rfl, h.2.2.2.2.1 rfl (by decide)⟩

/-- C7 counterexample: a payload missing both the provider session id and
the call-control id is not archived at all — the handler returns before the
archive insert, leaving the `webhooks` collection empty rather than holding
exactly one entry. -/
theorem C7_counterexample :
    (handleCallWebhook 0 "call.ended" {}
        { call_logs := [], webhooks := [] }).1.webhooks.length = 0 ∧
    (0 : Nat) ≠ 1 := by
  refine ⟨?_, ?_⟩ <;> decide

/-- C7 amended: a webhook payload missing both identifiers is ignored
without being archived — the handler returns early with an HTTP 200
acknowledgment carrying a `no_call_id` warning, mutating neither the call
logs nor the webhook archive. -/
theorem C7_malformed_ignored (now : Int) (et : String) (p : Payload)
    (st : DBState) (h1 : p.call_session_id = none)
    (h2 : p.call_control_id = none) :
    handleCallWebhook now et p st =
      (st, { http := 200, status := "received", note := none,
             warning := some "no_call_id", disposition := none }) := by
  rw [handleCallWebhook, if_pos ⟨h1, h2⟩]

/-- C7 witness: the amended behavior evaluated at an empty payload and a
concrete database state. -/
theorem C7_witness :
    handleCallWebhook 3 "call.hangup" {}
        { call_logs := [{ call_id := "C1" }], webhooks := [] } =
      ({ call_logs := [{ call_id := "C1" }], webhooks := [] },
        { http := 200, status := "received", note := none,
          warning := some "no_call_id", disposition := none }) :=
  C7_malformed_ignored 3 "call.hangup" {}
    { call_logs := [{ call_id := "C1" }], webhooks := [] } rfl rfl

/-- C6: a webhook whose identifiers resolve to no session mutates no call
session, appends exactly one entry to the webhook archive, and is
acknowledged with HTTP 200 and status `received`. -/
theorem C6_unmatched_archived (now : Int) (et : String) (p : Payload)
    (st : DBState)
    (hid : ¬(p.call_session_id = none ∧ p.call_control_id = none))
    (hmiss : resolveDoc p st.call_logs = none) :
    (handleCallWebhook now et p st).1.call_logs = st.call_logs ∧
    (handleCallWebhook now et p st).1.webhooks =
      st.webhooks ++
        [{ telnyx_session_id := p.call_session_id,
           telnyx_control_id := p.call_control_id,
           event_type := et, timestamp := now, call_id := none }] ∧
    (handleCallWebhook now et p st).2.http = 200 ∧
    (handleCallWebhook now et p st).2.status = "received" := by
  rw [handleCallWebhook, if_neg hid]
  rw [hmiss]
  exact ⟨rfl, rfl, rfl, rfl⟩

/-- C6 witness: the session id `unknown-123` matches nothing in an empty
registry; one archive entry is appended and the response is a 200
acknowledgment. -/
theorem C6_witness :
    (handleCallWebhook 0 "call.ended"
        { call_session_id := some "unknown-123" }
        { call_logs := [], webhooks := [] }).1.call_logs = [] ∧
    (handleCallWebhook 0 "call.ended"
        { call_session_id := some "unknown-123" }
        { call_logs := [], webhooks := [] }).1.webhooks =
      [] ++ [{ telnyx_session_id := some "unknown-123",
               telnyx_control_id := none, event_type := "call.ended",
               timestamp := 0, call_id := none }] ∧
    (handleCallWebhook 0 "call.ended"
        { call_session_id := some "unknown-123" }
        { call_logs := [], webhooks := [] }).2.http = 200 ∧
    (handleCallWebhook 0 "call.ended"
        { call_session_id := some "unknown-123" }
        { call_logs := [], webhooks := [] }).2.status = "received" :=
  C6_unmatched_archived 0 "call.ended"
    { call_session_id := some "unknown-123" }
    { call_logs := [], webhooks := [] } (by decide) rfl

/-- C9 counterexample: two `Answered` events for the same call id create
zero `ConferenceState`s (the handler has no conference bridging at all),
not exactly one; and in the interleaving where both deliveries load the
session before either records, two recording starts are issued, not at
most one. -/
theorem C9_counterexample :
    ((webrtcAnswer 10 { call_id := "C1", status := "dialing" } true
          { call_id := "C1", status := "dialing" }).conferenceCreates +
        (webrtcAnswer 11
          (webrtcAnswer 10 { call_id := "C1", status := "dialing" } true
            { call_id := "C1", status := "dialing" }).doc true
          (webrtcAnswer 10 { call_id := "C1", status := "dialing" } true
            { call_id := "C1", status := "dialing" }).doc
          ).conferenceCreates = 0 ∧
      (0 : Nat) ≠ 1) ∧
    ((webrtcAnswer 10 { call_id := "C1", status := "dialing" } true
          { call_id := "C1", status := "dialing" }).recordStartRequests +
        (webrtcAnswer 11 { call_id := "C1", status := "dialing" } true
          (webrtcAnswer 10 { call_id := "C1", status := "dialing" } true
            { call_id := "C1", status := "dialing" }).doc
          ).recordStartRequests = 2 ∧
      ¬((2 : Nat) ≤ 1)) := by
  refine ⟨⟨?_, ?_⟩, ?_, ?_⟩ <;> decide

/-- C9 amended: the webrtc `call.answered` handler performs no conference
bridging — no execution creates a `ConferenceState` or elects a leader.
Recording is guarded only by the `recording_requested` flag of the session
snapshot loaded at handler entry: a fresh session triggers one
`record_start` request; a second delivery processed after a successful
first one issues none; but a second delivery whose snapshot was loaded
before the first one recorded (the concurrent race) issues a second
`record_start`. -/
theorem C9_answered_no_conference (now now2 : Int) (snap d : CallDoc)
    (ok ok2 : Bool) (hreq : d.recording_requested = false) :
    (webrtcAnswer now snap ok d).conferenceCreates = 0 ∧
    (webrtcAnswer now d ok d).recordStartRequests = 1 ∧
    (webrtcAnswer now2 (webrtcAnswer now d true d).doc ok2
        (webrtcAnswer now d true d).doc).recordStartRequests = 0 ∧
    (webrtcAnswer now2 d ok2
        (webrtcAnswer now d ok d).doc).recordStartRequests = 1 := by
  refine ⟨?_, ?_, ?_, ?_⟩
  · cases hs : snap.recording_requested <;> cases ok <;>
      simp [webrtcAnswer, hs]
  · cases ok <;> simp [webrtcAnswer, hreq]
  · simp [webrtcAnswer, hreq]
  · cases ok2 <;> simp [webrtcAnswer, hreq]

/-- C9 witness: evaluated on a fresh session document. -/
theorem C9_witness :
    (webrtcAnswer 10 { call_id := "C1", status := "dialing" } true
        { call_id := "C1", status := "dialing" }).conferenceCreates = 0 ∧
    (webrtcAnswer 10 { call_id := "C1", status := "dialing" } true
        { call_id := "C1", status := "dialing" }).recordStartRequests = 1 := by
  have h := C9_answered_no_conference 10 11
    { call_id := "C1", status := "dialing" }
    { call_id := "C1", status := "dialing" } true true rfl
  exact ⟨h.1, h.2.1⟩

/-- C8 counterexample: when the auto-hangup timer fires on a session whose
status is the terminal `failed`, the guard `status != ENDED` passes, so the
timer still issues a hangup request and rewrites the session to `ended` —
it is not the claimed no-op on terminal sessions. -/
theorem C8_counterexample :
    (autoHangupFire 60 "C1"
        [{ call_id := "C1", status := "failed",
           telnyx_call_control_id := some "cc1" }] ["C1"]).hangupRequests
      = 1 ∧
    (1 : Nat) ≠ 0 ∧
    (autoHangupFire 60 "C1"
        [{ call_id := "C1", status := "failed",
           telnyx_call_control_id := some "cc1" }] ["C1"]).logs ≠
      [{ call_id := "C1", status := "failed",
         telnyx_call_control_id := some "cc1" }] := by
  refine ⟨?_, ?_, ?_⟩ <;> decide

/-- C8 amended: the firing timer re-checks only for the status `ended` —
on an `ended` session it issues no hangup and changes nothing, and in
particular an explicit outbound hangup before the fire time makes the
subsequent firing a no-op; but on a session in the terminal status
`failed` it still issues a hangup request and overwrites the session to
`ended`. -/
theorem C8_fire_guard (t t2 : Int) (cid : String) (logs : List CallDoc)
    (active : List String) (c : CallDoc)
    (hfind : logs.find? (matchId cid) = some c) :
    (c.status = "ended" →
      autoHangupFire t cid logs active =
        { logs := logs, active := active, response := .ok ("noop", 0),
          hangupRequests := 0 }) ∧
    (c.status ≠ "ended" → c.telnyx_call_control_id.isSome = true →
      (autoHangupFire t cid logs active).hangupRequests = 1 ∧
      (autoHangupFire t cid logs active).logs.find? (matchId cid) =
        some { c with status := "ended", ended_at := some t }) ∧
    (autoHangupFire t2 cid (outboundHangup t cid logs active).logs
        (outboundHangup t cid logs active).active =
      { logs := (outboundHangup t cid logs active).logs,
        active := (outboundHangup t cid logs active).active,
        response := .ok ("noop", 0), hangupRequests := 0 }) := by
  refine ⟨?_, ?_, ?_⟩
  · intro hs
    simp [autoHangupFire, hfind, hs]
  · intro hs hcc
    obtain ⟨x, hx⟩ := Option.isSome_iff_exists.mp hcc
    constructor
    · simp [autoHangupFire, hfind, hs, hx]
    · simp only [autoHangupFire, hfind, if_neg hs]
      rw [find_updateFirst (matchId cid)
        (fun d => { d with status := "ended", ended_at := some t })
        (fun d => rfl) logs, hfind]
      rfl
  · have hupd : (outboundHangup t cid logs active).logs.find? (matchId cid)
        = some
          { c with
            status := "ended"
            duration := (match c.started_at with
              | some s => t - s
              | none => 0)
            ended_at := some t } := by
      simp only [outboundHangup, hfind]
      rw [find_updateFirst (matchId cid)
        (fun d =>
          { d with
            status := "ended"
            duration := (match c.started_at with
              | some s => t - s
              | none => 0)
            ended_at := some t })
        (fun d => rfl) logs, hfind]
      rfl
    simp [autoHangupFire, hupd]

/-- C8 witness: an explicit hangup at t=10 followed by the timer firing at
t=60 issues no hangup action at fire time. -/
theorem C8_witness :
    autoHangupFire 60 "C1"
        (outboundHangup 10 "C1"
          [{ call_id := "C1", status := "active", started_at := some 0,
             telnyx_call_control_id := some "cc1" }] ["C1"]).logs
        (outboundHangup 10 "C1"
          [{ call_id := "C1", status := "active", started_at := some 0,
             telnyx_call_control_id := some "cc1" }] ["C1"]).active =
      { logs := (outboundHangup 10 "C1"
          [{ call_id := "C1", status := "active", started_at := some 0,
             telnyx_call_control_id := some "cc1" }] ["C1"]).logs,
        active := (outboundHangup 10 "C1"
          [{ call_id := "C1", status := "active", started_at := some 0,
             telnyx_call_control_id := some "cc1" }] ["C1"]).active,
        response := .ok ("noop", 0), hangupRequests := 0 } :=
  (C8_fire_guard 10 60 "C1"
    [{ call_id := "C1", status := "active", started_at := some 0,
       telnyx_call_control_id := some "cc1" }] ["C1"]
    { call_id := "C1", status := "active", started_at := some 0,
      telnyx_call_control_id := some "cc1" } rfl).2.2

/-- Two identical first-match updates collapse to one when the update is
pointwise idempotent and preserves the filter. -/
theorem updateFirst_idem (p : CallDoc → Bool) (f : CallDoc → CallDoc)
    (hp : ∀ d, p (f d) = p d) (hf : ∀ d, f (f d) = f d) (l : List CallDoc) :
    updateFirst p f (updateFirst p f l) = updateFirst p f l := by
  rw [updateFirst_comp p f f hp l]
  have h : (fun d => f (f d)) = f := funext hf
  rw [h]

/-- After updating the resolved document, the same call id resolves to its
image, provided the update keeps the call id. -/
theorem find_after_update (cid : String) (f : CallDoc → CallDoc)
    (logs : List CallDoc) (c : CallDoc)
    (hid : ∀ d, (f d).call_id = d.call_id)
    (hfind : logs.find? (matchId cid) = some c) :
    (updateFirst (matchId cid) f logs).find? (matchId cid) = some (f c) := by
  rw [find_updateFirst (matchId cid) f
    (fun d => by simp [matchId, hid d]) logs, hfind]
  rfl

/-- On a registry where the call id resolves to a terminal document, the
webrtc hangup endpoint changes nothing and answers `already_ended`. -/
theorem webrtcHangup_terminal (now : Int) (cid : String) (l : List CallDoc)
    (c : CallDoc) (hfind : l.find? (matchId cid) = some c)
    (hst : c.status = "ended" ∨ c.status = "completed" ∨
      c.status = "failed") :
    webrtcHangup now cid l =
      { logs := l, response := .ok ("already_ended", c.duration) } := by
  simp only [webrtcHangup, hfind]
  rw [if_pos hst]

/-- After the webrtc hangup endpoint processes a non-terminal session, the
call id resolves to a document whose status is `ended`. -/
theorem webrtcHangup_leaves_terminal (now : Int) (cid : String)
    (logs : List CallDoc) (c : CallDoc)
    (hfind : logs.find? (matchId cid) = some c)
    (hterm : ¬(c.status = "ended" ∨ c.status = "completed" ∨
      c.status = "failed")) :
    ∃ c2 : CallDoc,
      (webrtcHangup now cid logs).logs.find? (matchId cid) = some c2 ∧
      c2.status = "ended" := by
  simp only [webrtcHangup, hfind]
  rw [if_neg hterm]
  exact ⟨_, find_after_update cid _ logs c (fun d => rfl) hfind, rfl⟩

/-- `hang_up_call` on a registry where the call id resolves. -/
theorem callsHangUp_found (now : Int) (cid : String) (logs : List CallDoc)
    (c : CallDoc) (hfind : logs.find? (matchId cid) = some c) :
    callsHangUp now cid logs =
      { logs := updateFirst (matchId cid)
          (fun d => { d with status := "ended", ended_at := some now })
          logs,
        response := .ok ("ended", 0) } := by
  simp only [callsHangUp, hfind]

/-- `hangup_outbound_call` on a registry where the call id resolves. -/
theorem outboundHangup_found (now : Int) (cid : String)
    (logs : List CallDoc) (active : List String) (c : CallDoc)
    (hfind : logs.find? (matchId cid) = some c) :
    outboundHangup now cid logs active =
      { logs := updateFirst (matchId cid)
          (fun d =>
            { d with
              status := "ended"
              duration := (match c.started_at with
                | some s => now - s
                | none => 0)
              ended_at := some now }) logs
        active := active.filter (fun x => !(x == cid))
        response := .ok ("ended", (match c.started_at with
          | some s => now - s
          | none => 0))
        hangupRequests := (match c.telnyx_call_control_id with
          | some _ => 1
          | none => 0) } := by
  simp only [outboundHangup, hfind]

/-- C5 counterexample: invoking the outbound hangup twice, at t=10 and
t=20, leaves a different final session state than invoking it once — the
second invocation recomputes the duration (20 instead of 10) and rewrites
`ended_at`, because the endpoint has no terminal guard. -/
theorem C5_counterexample :
    (outboundHangup 20 "C1"
        (outboundHangup 10 "C1"
          [{ call_id := "C1", status := "active", started_at := some 0 }]
          ["C1"]).logs
        (outboundHangup 10 "C1"
          [{ call_id := "C1", status := "active", started_at := some 0 }]
          ["C1"]).active).logs ≠
      (outboundHangup 10 "C1"
        [{ call_id := "C1", status := "active", started_at := some 0 }]
        ["C1"]).logs := by
  decide

/-- C5 amended: for a call id present in the registry, no hangup endpoint
errors, including after the first terminal transition; the webrtc hangup is
idempotent — a second invocation at any later time leaves the registry
unchanged and succeeds with `already_ended`; the calls.py and outbound.py
hangups always succeed but rewrite the terminal fields on every
invocation, so repeating them reproduces the same final state only at the
same clock instant. -/
theorem C5_hangup_amended (now now2 : Int) (cid : String)
    (logs : List CallDoc) (active : List String) (c : CallDoc)
    (hfind : logs.find? (matchId cid) = some c) :
    ((webrtcHangup now2 cid (webrtcHangup now cid logs).logs).logs =
        (webrtcHangup now cid logs).logs ∧
      isOk (webrtcHangup now2 cid
        (webrtcHangup now cid logs).logs).response = true) ∧
    (isOk (callsHangUp now2 cid (callsHangUp now cid logs).logs).response
        = true ∧
      (callsHangUp now cid (callsHangUp now cid logs).logs).logs =
        (callsHangUp now cid logs).logs) ∧
    (isOk (outboundHangup now2 cid (outboundHangup now cid logs active).logs
        (outboundHangup now cid logs active).active).response = true ∧
      (outboundHangup now cid (outboundHangup now cid logs active).logs
        (outboundHangup now cid logs active).active).logs =
        (outboundHangup now cid logs active).logs) := by
  have ec : (callsHangUp now cid logs).logs =
      updateFirst (matchId cid)
        (fun d => { d with status := "ended", ended_at := some now })
        logs := by
    rw [callsHangUp_found now cid logs c hfind]
  have hfc : (updateFirst (matchId cid)
      (fun d => { d with status := "ended", ended_at := some now })
      logs).find? (matchId cid) =
      some { c with status := "ended", ended_at := some now } :=
    find_after_update cid _ logs c (fun d => rfl) hfind
  have eo : (outboundHangup now cid logs active).logs =
      updateFirst (matchId cid)
        (fun d =>
          { d with
            status := "ended"
            duration := (match c.started_at with
              | some s => now - s
              | none => 0)
            ended_at := some now }) logs := by
    rw [outboundHangup_found now cid logs active c hfind]
  have hfo : (updateFirst (matchId cid)
      (fun d =>
        { d with
          status := "ended"
          duration := (match c.started_at with
            | some s => now - s
            | none => 0)
          ended_at := some now }) logs).find? (matchId cid) =
      some { c with
             status := "ended"
             duration := (match c.started_at with
               | some s => now - s
               | none => 0)
             ended_at := some now } :=
    find_after_update cid _ logs c (fun d => rfl) hfind
  refine ⟨?_, ⟨?_, ?_⟩, ⟨?_, ?_⟩⟩
  · by_cases hterm : c.status = "ended" ∨ c.status = "completed" ∨
        c.status = "failed"
    · have e1 : (webrtcHangup now cid logs).logs = logs := by
        rw [webrtcHangup_terminal now cid logs c hfind hterm]
      rw [e1, webrtcHangup_terminal now2 cid logs c hfind hterm]
      exact ⟨rfl, rfl⟩
    · obtain ⟨c2, hf2, hs2⟩ :=
        webrtcHangup_leaves_terminal now cid logs c hfind hterm
      rw [webrtcHangup_terminal now2 cid _ c2 hf2 (Or.inl hs2)]
      exact ⟨rfl, rfl⟩
  · rw [ec, callsHangUp_found now2 cid _ _ hfc]
    rfl
  · rw [ec, callsHangUp_found now cid _ _ hfc]
    exact updateFirst_idem (matchId cid)
      (fun d => { d with status := "ended", ended_at := some now })
      (fun d => rfl) (fun d => rfl) logs
  · rw [eo, outboundHangup_found now2 cid _ _ _ hfo]
    rfl
  · rw [eo, outboundHangup_found now cid _ _ _ hfo]
    exact updateFirst_idem (matchId cid)
      (fun d =>
        { d with
          status := "ended"
          duration := (match c.started_at with
            | some s => now - s
            | none => 0)
          ended_at := some now })
      (fun d => rfl) (fun d => rfl) logs

/-- C5 witness: evaluated on a one-document registry with hangups at t=10
and t=20 — the second calls.py invocation still succeeds and the second
webrtc invocation leaves the registry unchanged. -/
theorem C5_witness :
    isOk (callsHangUp 20 "C1" (callsHangUp 10 "C1"
        [{ call_id := "C1", status := "active", started_at := some 0 }]
      ).logs).response = true ∧
    (webrtcHangup 20 "C1" (webrtcHangup 10 "C1"
        [{ call_id := "C1", status := "active", started_at := some 0 }]
      ).logs).logs =
      (webrtcHangup 10 "C1"
        [{ call_id := "C1", status := "active", started_at := some 0 }]
      ).logs := by
  have h := C5_hangup_amended 10 20 "C1"
    [{ call_id := "C1", status := "active", started_at := some 0 }]
    ["C1"] { call_id := "C1", status := "active", started_at := some 0 } rfl
  exact ⟨h.2.1.1, h.1.1⟩
